import Mathlib

/-!
Shallow embedding of the message-relay bot in `main.py`.

Modelling conventions, used throughout:
* Every persisted JSON document is a Python dict keyed by `str(user_id)` (or a
  prefixed message-id string).  Since `str` is injective on the integer ids the
  code uses, each document is modelled as an association list keyed by `Nat`.
  Python dicts have unique keys; `setKey` replaces in place (preserving the
  insertion position, as CPython dicts do) and `delKey` removes the key.
* Message text and all rendered strings are modelled as `List Char` (`Str`),
  matching Python `str` as a sequence of Unicode code points.
* Wall-clock timestamps (`datetime.now().isoformat()` and the rendered date in
  headers) are modelled as a `Nat` passed in by the caller; ISO-8601 strings
  produced at increasing times compare lexicographically in the same order as
  the corresponding instants, so `max` over the modelled `Nat` keys agrees with
  Python's `max` over the ISO-string keys of `broadcast.json`.
* Platform-assigned message ids (`forwarded_message.message_id`,
  `sent_reply.message_id`) are inputs chosen by the messaging platform and are
  passed as explicit `Nat` parameters.
* Outbound network calls are modelled by recording them in the handler's
  result; where the source wraps calls in `try/except`, Boolean oracles stand
  for "this call raised" and the handler follows the source's control flow.
-/

abbrev Str := List Char

/-- Python truthiness of a possibly-absent string (`None` and `""` are falsy). -/
def pyTruthy (t : Option Str) : Bool :=
  match t with
  | some s => !s.isEmpty
  | none => false

/-- Python `a or b` on strings: `b` when `a` is empty, else `a`. -/
def pyOrStr (a b : Str) : Str := if a.isEmpty then b else a

/-- Python `a or b` where `a` is an optional string (`None` or `""` falls back). -/
def pyOrOpt (o : Option Str) (fb : Str) : Str :=
  match o with
  | some s => if s.isEmpty then fb else s
  | none => fb

/-- Characters removed by Python `str.strip()`: the characters on which
`str.isspace()` holds — ASCII whitespace, the information separators
U+001C to U+001F, NEL (U+0085), NBSP (U+00A0), the Unicode space separators
(U+1680, U+2000 to U+200A, U+202F, U+205F, U+3000), and the line and
paragraph separators U+2028 and U+2029. -/
def pyIsSpace (c : Char) : Bool :=
  c == ' ' || c == '\t' || c == '\n' || c == '\r' || c == '\x0b' || c == '\x0c' ||
  (0x1c ≤ c.toNat && c.toNat ≤ 0x1f) ||
  c.toNat == 0x85 || c.toNat == 0xa0 || c.toNat == 0x1680 ||
  (0x2000 ≤ c.toNat && c.toNat ≤ 0x200a) ||
  c.toNat == 0x2028 || c.toNat == 0x2029 ||
  c.toNat == 0x202f || c.toNat == 0x205f || c.toNat == 0x3000

/-- Python `str.strip()`: drop leading and trailing whitespace. -/
def strip (s : Str) : Str :=
  ((s.dropWhile pyIsSpace).reverse.dropWhile pyIsSpace).reverse

/-- Python `s.startswith('@')`. -/
def startsWithAtSign (s : Str) : Bool := s.head? == some '@'

/-- Decimal rendering of a `Nat`, for the f-string interpolations of ids. -/
def natStr (n : Nat) : Str := (Nat.repr n).data

/-- Dict lookup, `d.get(k)`: first binding of the key, if any. -/
def getKey (k : Nat) : List (Nat × α) → Option α
  | [] => none
  | (k', v) :: rest => if k' = k then some v else getKey k rest

/-- Dict update, `d[k] = v`: replace the binding in place, or append a new one
(CPython dicts preserve the insertion position of an existing key). -/
def setKey (k : Nat) (v : α) : List (Nat × α) → List (Nat × α)
  | [] => [(k, v)]
  | (k', v') :: rest => if k' = k then (k, v) :: rest else (k', v') :: setKey k v rest

/-- Dict deletion, `del d[k]`.  Dicts never hold a duplicate key, so removal is
modelled as dropping every binding of the key. -/
def delKey (k : Nat) (l : List (Nat × α)) : List (Nat × α) :=
  l.filter (fun p => p.1 != k)

/-- Maximum of a dict's keys, `max(d.keys())` (`none` on an empty dict). -/
def maxKey : List (Nat × α) → Option Nat
  | [] => none
  | (k, _) :: rest =>
    match maxKey rest with
    | none => some k
    | some m => some (max k m)

/-- Outcome of reading one on-disk JSON document: the file may be absent
(`FileNotFoundError`), unparseable (`json.JSONDecodeError`), or hold data. -/
inductive FileState (α : Type) where
  | missing : FileState α
  | corrupt : FileState α
  | stored (data : α) : FileState α

/-- Embeds `load_json_file`: return the parsed document, and an empty mapping
when the file is missing or corrupt (both exception classes are caught; the
function is total, it raises nothing it does not catch here). -/
def load_json_file {κ ν : Type} : FileState (List (κ × ν)) → List (κ × ν)
  | .missing => []
  | .corrupt => []
  | .stored d => d

/-- Telegram group id the bot treats as the staff destination
(`ADMIN_GROUP_ID`, compared via `str(chat.id) != str(ADMIN_GROUP_ID)`, which on
integer chat ids is integer equality). -/
def ADMIN_GROUP_ID : Int := -1002760567924

/-- Text of `CONFIRMATION_MESSAGE`. -/
def CONFIRMATION_MESSAGE : Str :=
  "✅ تم إرسال رسالتك، سيتم الرد عليك في أقرب وقت ممكن .".data

/-- Text of `WELCOME_MESSAGE`. -/
def WELCOME_MESSAGE : Str :=
  "مرحبا بك . في بوت تواصل الأقسام\n\nالبوت مخصص لـ :\n-• تفعيل الموقع من خلال إرسال دليل الإشتراك\n-• إرسال ما ورد لكم في الاختبار\n-• إرسال الملاحظات والاقتراحات\n\nارسل رسالتك و سيتم الرد عليك في أقرب وقت 🫡".data

/-- Text of `BAN_MESSAGE`. -/
def BAN_MESSAGE : Str := "لقد تم حظرك من استخدام البوت❌".data

/-- Text of the start button the welcome keyboard carries. -/
def START_BUTTON : Str := "🚀 ابدأ".data

/-- Confirmation sent to the staff member after a relayed reply. -/
def REPLY_SENT_MESSAGE : Str := "✅ تم إرسال الرد للمستخدم".data

/-- Inbound Telegram user object (fields of `update.effective_user` the code
reads; `username`, `first_name`, `last_name` may be `None`). -/
structure UserInfo where
  id : Nat
  username : Option Str
  first_name : Option Str
  last_name : Option Str
deriving DecidableEq

/-- Dict built by `get_user_info` (before `add_user` adds `join_date`). -/
structure UserProfile where
  id : Nat
  username : Str
  first_name : Str
  last_name : Str
  display_name : Str
deriving DecidableEq

/-- Embeds `get_user_info`. -/
def get_user_info (u : UserInfo) : UserProfile :=
  let first := u.first_name.getD []
  let last := u.last_name.getD []
  let disp0 := strip (first ++ " ".data ++ last)
  { id := u.id
    username := pyOrOpt u.username ("No username".data)
    first_name := first
    last_name := last
    display_name := pyOrStr disp0 (pyOrOpt u.username ("User_".data ++ natStr u.id)) }

/-- Entry of `users.json`: the `get_user_info` dict plus `join_date`. -/
structure UserRec where
  id : Nat
  username : Str
  first_name : Str
  last_name : Str
  display_name : Str
  join_date : Nat
deriving DecidableEq

/-- Embeds `add_user`: upsert the sender into the users document. -/
def add_user (users : List (Nat × UserRec)) (user_id : Nat) (info : UserProfile)
    (now : Nat) : List (Nat × UserRec) :=
  setKey user_id
    { id := info.id, username := info.username, first_name := info.first_name
      last_name := info.last_name, display_name := info.display_name
      join_date := now } users

/-- Type tag of a history entry (the code only ever writes these two strings). -/
inductive EntryType where
  | user_message : EntryType
  | admin_reply : EntryType
deriving DecidableEq

/-- Entry of a per-user list in `user_history.json`. -/
structure HistEntry where
  message : Str
  type : EntryType
  timestamp : Nat
deriving DecidableEq

/-- Embeds `add_to_history`: append an entry to the sender's (possibly new)
history list. -/
def add_to_history (history : List (Nat × List HistEntry)) (user_id : Nat)
    (message_text : Str) (message_type : EntryType) (now : Nat) :
    List (Nat × List HistEntry) :=
  let cur := (getKey user_id history).getD []
  setKey user_id (cur ++ [{ message := message_text, type := message_type, timestamp := now }]) history

/-- Entry of `banlist.json`. -/
structure BanRec where
  username : Str
  display_name : Str
  reason : Str
  ban_date : Nat
deriving DecidableEq

/-- Embeds `is_user_banned`: key presence in the ban document. -/
def is_user_banned (banlist : List (Nat × BanRec)) (user_id : Nat) : Bool :=
  (getKey user_id banlist).isSome

/-- Embeds `ban_user`: create or overwrite the ban record, snapshotting the
user's stored name fields (`Unknown` when the user is not stored). -/
def ban_user (users : List (Nat × UserRec)) (banlist : List (Nat × BanRec))
    (user_id : Nat) (reason : Str) (now : Nat) : List (Nat × BanRec) :=
  let rec_username := match getKey user_id users with
    | some u => u.username
    | none => "Unknown".data
  let rec_display := match getKey user_id users with
    | some u => u.display_name
    | none => "Unknown".data
  setKey user_id
    { username := rec_username, display_name := rec_display
      reason := reason, ban_date := now } banlist

/-- Embeds `unban_user`: delete the record when present and report `True`,
else leave the document alone and report `False`. -/
def unban_user (banlist : List (Nat × BanRec)) (user_id : Nat) :
    List (Nat × BanRec) × Bool :=
  if (getKey user_id banlist).isSome then (delKey user_id banlist, true)
  else (banlist, false)

/-- Value stored under a `reply_{admin_msg_id}` key of `message_mappings.json`. -/
structure ReplyInfo where
  user_id : Nat
  message_id : Nat
deriving DecidableEq

/-- The single `message_mappings.json` document.  Its keys are the disjoint
namespaces `msg_{id}` and `reply_{id}`, modelled as two keyed lists. -/
structure Mappings where
  msgMap : List (Nat × Nat)
  replyMap : List (Nat × ReplyInfo)
deriving DecidableEq

/-- Embeds `save_message_mapping`: record `msg_{forwarded_msg_id} -> user_id`. -/
def save_message_mapping (forwarded_msg_id user_id : Nat) (m : Mappings) : Mappings :=
  { m with msgMap := setKey forwarded_msg_id user_id m.msgMap }

/-- Embeds `get_user_from_mapping`: look up `msg_{forwarded_msg_id}`. -/
def get_user_from_mapping (forwarded_msg_id : Nat) (m : Mappings) : Option Nat :=
  getKey forwarded_msg_id m.msgMap

/-- Embeds `save_reply_mapping`: record `reply_{admin_msg_id} -> {user_id,
message_id}`. -/
def save_reply_mapping (admin_msg_id user_id reply_msg_id : Nat) (m : Mappings) : Mappings :=
  { m with replyMap := setKey admin_msg_id ⟨user_id, reply_msg_id⟩ m.replyMap }

/-- Content of an inbound Telegram message, one constructor per arm of the
source's `if message.text: ... elif message.photo: ...` classification chain
(Telegram messages carry at most one of these payloads; captions and file
names may be `None`).  Latitude and longitude are floats in the source and are
modelled by their rendered text. -/
inductive MsgBody where
  | text (t : Str) : MsgBody
  | photo (caption : Option Str) : MsgBody
  | video (caption : Option Str) : MsgBody
  | audio (caption : Option Str) : MsgBody
  | voice : MsgBody
  | document (file_name : Str) (caption : Option Str) : MsgBody
  | sticker (emoji : Option Str) : MsgBody
  | animation (caption : Option Str) : MsgBody
  | video_note : MsgBody
  | location (latText lonText : Str) : MsgBody
  | contact (first_name : Str) : MsgBody
  | unsupported : MsgBody
deriving DecidableEq

/-- The `message.text` field (`None` unless the message is a text message). -/
def bodyText : MsgBody → Option Str
  | .text t => some t
  | _ => none

/-- Caption interpolation `message.caption or ''`. -/
def capText (c : Option Str) : Str := c.getD []

/-- Bracketed media tag built by the `handle_private_message` classification
chain.  A falsy (empty) `message.text` falls through every `elif` to the
final `else`, like in the source. -/
def classify_private (b : MsgBody) : Str :=
  match b with
  | .text t => if t.isEmpty then "[نوع رسالة غير مدعوم]".data else t
  | .photo c => "[صورة] ".data ++ capText c
  | .video c => "[فيديو] ".data ++ capText c
  | .audio c => "[صوت] ".data ++ capText c
  | .voice => "[رسالة صوتية]".data
  | .document fn c => "[ملف: ".data ++ fn ++ "] ".data ++ capText c
  | .sticker e => "[ملصق: ".data ++ capText e ++ "]".data
  | .animation c => "[GIF] ".data ++ capText c
  | .video_note => "[فيديو دائري]".data
  | .location la lo => "[موقع: ".data ++ la ++ ", ".data ++ lo ++ "]".data
  | .contact fn => "[جهة اتصال: ".data ++ fn ++ "]".data
  | .unsupported => "[نوع رسالة غير مدعوم]".data

/-- History text recorded for a staff media reply (the media branch of
`handle_group_message`; it has no text arm, so a falsy text lands on the
final `else`). -/
def classify_admin_media (b : MsgBody) : Str :=
  "Admin reply: ".data ++
    match b with
    | .photo c => "[صورة] ".data ++ capText c
    | .video c => "[فيديو] ".data ++ capText c
    | .audio c => "[صوت] ".data ++ capText c
    | .voice => "[رسالة صوتية]".data
    | .document fn c => "[ملف: ".data ++ fn ++ "] ".data ++ capText c
    | .sticker e => "[ملصق: ".data ++ capText e ++ "]".data
    | .animation c => "[GIF] ".data ++ capText c
    | .video_note => "[فيديو دائري]".data
    | .location la lo => "[موقع: ".data ++ la ++ ", ".data ++ lo ++ "]".data
    | .contact fn => "[جهة اتصال: ".data ++ fn ++ "]".data
    | _ => "[نوع رسالة غير مدعوم]".data

/-- The persisted documents `handle_private_message` and
`handle_group_message` read and write. -/
structure Store where
  users : List (Nat × UserRec)
  history : List (Nat × List HistEntry)
  banlist : List (Nat × BanRec)
  mappings : Mappings
deriving DecidableEq

/-- Header text sent to the staff group before a forwarded user message. -/
def headerText (p : UserProfile) (now : Nat) : Str :=
  "📩 رسالة جديدة من:\n👤 الاسم: ".data ++ p.display_name ++
  "\n🆔 المعرف: @".data ++ p.username ++
  "\n🔢 الرقم: ".data ++ natStr p.id ++
  "\n📅 التاريخ: ".data ++ natStr now

/-- Observable outcome of `handle_private_message`: the documents after the
handler, the `reply_text` messages sent back to the sender, the
`send_message` texts sent to the staff group, and whether the original
message was forwarded there. -/
structure PrivResult where
  store : Store
  userReplies : List Str
  adminSends : List Str
  forwarded : Bool
deriving DecidableEq

/-- Embeds `handle_private_message`.  `now` is the wall clock, `fwdId` the
message id the platform assigns to the forwarded copy; `sendOk` and `fwdOk`
say whether the header `send_message` and the `forward` raise inside the
`try` block (a raise skips the rest of the block; the confirmation reply is
outside it and always sent). -/
def handle_private_message (st : Store) (sender : UserInfo) (body : MsgBody)
    (now : Nat) (fwdId : Nat) (sendOk fwdOk : Bool) : PrivResult :=
  if is_user_banned st.banlist sender.id then
    { store := st, userReplies := [BAN_MESSAGE], adminSends := [], forwarded := false }
  else if bodyText body = some START_BUTTON then
    let info := get_user_info sender
    { store := { st with users := add_user st.users sender.id info now }
      userReplies := [WELCOME_MESSAGE], adminSends := [], forwarded := false }
  else
    let info := get_user_info sender
    let st1 := { st with users := add_user st.users sender.id info now }
    let content := classify_private body
    let st2 := { st1 with history := add_to_history st1.history sender.id content .user_message now }
    if sendOk then
      if fwdOk then
        { store := { st2 with mappings := save_message_mapping fwdId sender.id st2.mappings }
          userReplies := [CONFIRMATION_MESSAGE]
          adminSends := [headerText info now]
          forwarded := true }
      else
        { store := st2, userReplies := [CONFIRMATION_MESSAGE]
          adminSends := [headerText info now], forwarded := false }
    else
      { store := st2, userReplies := [CONFIRMATION_MESSAGE]
        adminSends := [], forwarded := false }

/-- The internal-note test of `handle_group_message`:
`message.text and message.text.strip().startswith('@')`. -/
def isInternalNote (body : MsgBody) : Bool :=
  pyTruthy (bodyText body) && startsWithAtSign (strip ((bodyText body).getD []))

/-- Inline error the staff member receives when delivery raises
(`f"فشل في إرسال الرد: \x7bstr(e)\x7d"` with its leading cross mark); the
rendered exception text is an input from the platform. -/
def replyFailedText (e : Str) : Str := "❌ فشل في إرسال الرد: ".data ++ e

/-- Observable outcome of `handle_group_message`: the documents after the
handler, the `send_message` calls attempted towards users (chat id and
text; a recorded attempt may still raise, see the oracles of
`handle_group_message`), the user a `message.forward` was attempted to (if
any), and the acknowledgment replied to the staff member. -/
structure GroupResult where
  store : Store
  sendAttempts : List (Nat × Str)
  forwardAttempt : Option Nat
  adminReply : Option Str
deriving DecidableEq

/-- Result of a group-message event that changes and sends nothing. -/
def groupNoop (st : Store) : GroupResult :=
  { store := st, sendAttempts := [], forwardAttempt := none, adminReply := none }

/-- Embeds `handle_group_message`.  `msgId` is the staff message's own id,
`replyTo` the id of the message it replies to (if any), `deliveredId` the
platform-assigned id of the copy delivered to the user.  The delivery calls
sit in a `try/except`: `sendOk` says whether the `send_message` towards the
user raises, `fwdOk` whether the media `message.forward` raises; a raise
skips the rest of the block (so no mapping or history write and, for media,
no forward after a failed send) and the staff member gets the inline error
built from the exception text `errText` instead of the success
acknowledgment.  The staff-side `reply_text` acknowledgments are modelled as
succeeding.  The `if original_user_id:` truthiness test makes a zero id
falsy, exactly as in Python. -/
def handle_group_message (st : Store) (chatId : Int) (msgId : Nat)
    (replyTo : Option Nat) (body : MsgBody) (now : Nat) (deliveredId : Nat)
    (sendOk fwdOk : Bool) (errText : Str) : GroupResult :=
  if chatId ≠ ADMIN_GROUP_ID then groupNoop st
  else
    match replyTo with
    | none => groupNoop st
    | some rid =>
      let uid? := get_user_from_mapping rid st.mappings
      if isInternalNote body then groupNoop st
      else
        match uid? with
        | none => groupNoop st
        | some uid =>
          if uid = 0 then groupNoop st
          else if pyTruthy (bodyText body) then
            let t := (bodyText body).getD []
            if sendOk then
              let st1 := { st with mappings := save_reply_mapping msgId uid deliveredId st.mappings }
              let st2 := { st1 with history := add_to_history st1.history uid ("Admin reply: ".data ++ t) .admin_reply now }
              { store := st2
                sendAttempts := [(uid, "📩 رد من الإدارة:\n\n".data ++ t)]
                forwardAttempt := none
                adminReply := some REPLY_SENT_MESSAGE }
            else
              { store := st
                sendAttempts := [(uid, "📩 رد من الإدارة:\n\n".data ++ t)]
                forwardAttempt := none
                adminReply := some (replyFailedText errText) }
          else
            if sendOk then
              if fwdOk then
                let st1 := { st with mappings := save_reply_mapping msgId uid deliveredId st.mappings }
                let st2 := { st1 with history := add_to_history st1.history uid (classify_admin_media body) .admin_reply now }
                { store := st2
                  sendAttempts := [(uid, "📩 رد من الإدارة:".data)]
                  forwardAttempt := some uid
                  adminReply := some REPLY_SENT_MESSAGE }
              else
                { store := st
                  sendAttempts := [(uid, "📩 رد من الإدارة:".data)]
                  forwardAttempt := some uid
                  adminReply := some (replyFailedText errText) }
            else
              { store := st
                sendAttempts := [(uid, "📩 رد من الإدارة:".data)]
                forwardAttempt := none
                adminReply := some (replyFailedText errText) }

/-- Embeds `cmd_list`: inside the staff group, report the inflated user count
(`1200 + actual_user_count`); elsewhere the command is a no-op. -/
def cmd_list (chatId : Int) (users : List (Nat × UserRec)) : Option Str :=
  if chatId ≠ ADMIN_GROUP_ID then none
  else
    let actual_user_count := users.length
    let displayed_count := 1200 + actual_user_count
    some ("👥 عدد المستخدمين: ".data ++ natStr displayed_count)

/-- One recipient receipt inside a broadcast record. -/
structure Recipient where
  user_id : Nat
  message_id : Nat
deriving DecidableEq

/-- Observable outcome of the `/delete all` branch of `cmd_delete`. -/
structure DeleteAllResult where
  newBroadcasts : List (Nat × List Recipient)
  attempted : List Recipient
  deleted : Nat
  failed : Nat
  reply : Str
deriving DecidableEq

/-- Embeds the `args[0] == "all"` branch of `cmd_delete`: on an empty
broadcast document reply with an error; otherwise attempt to delete the
delivered copy for every recipient of the record with the greatest key,
counting outcomes in a loop, then drop that record unconditionally and report
the counts.  `ok uid mid` says whether `delete_message(uid, mid)` succeeds. -/
def cmd_delete_all (ok : Nat → Nat → Bool)
    (broadcast_data : List (Nat × List Recipient)) : Option DeleteAllResult :=
  match maxKey broadcast_data with
  | none => none
  | some latest =>
    let recipients := (getKey latest broadcast_data).getD []
    let counts := recipients.foldl
      (fun (acc : Nat × Nat) r =>
        if ok r.user_id r.message_id then (acc.1 + 1, acc.2) else (acc.1, acc.2 + 1))
      (0, 0)
    some { newBroadcasts := delKey latest broadcast_data
           attempted := recipients
           deleted := counts.1
           failed := counts.2
           reply := "✅ تم حذف آخر رسالة بث\nنجح: ".data ++ natStr counts.1 ++
                    "\nفشل: ".data ++ natStr counts.2 }

/-- Item returned by the `/api/recent-activity` endpoint. -/
structure ActivityItem where
  user_id : Nat
  message : Str
  type : EntryType
  timestamp : Nat
deriving DecidableEq

/-- Display truncation applied by the endpoint:
`message['message'][:100] + ('...' if len(...) > 100 else '')`. -/
def truncate100 (s : Str) : Str :=
  s.take 100 ++ (if s.length > 100 then "...".data else [])

/-- Python slice `messages[-5:]`: the last (at most) `n` elements. -/
def lastN (n : Nat) (l : List α) : List α := l.drop (l.length - n)

/-- Item built for one history entry of one user. -/
def renderItem (uid : Nat) (e : HistEntry) : ActivityItem :=
  { user_id := uid, message := truncate100 e.message, type := e.type
    timestamp := e.timestamp }

/-- Stable insertion into a list sorted by descending timestamp: an item goes
before the first strictly older item and after every item at least as new. -/
def insertItem (x : ActivityItem) : List ActivityItem → List ActivityItem
  | [] => [x]
  | y :: ys => if y.timestamp ≤ x.timestamp then x :: y :: ys else y :: insertItem x ys

/-- Stable sort by descending timestamp.  Python's
`sort(key=..., reverse=True)` is a stable descending sort, and a stable sort
is uniquely determined by key and input order, so this structural insertion
sort computes exactly the list the source's sort produces. -/
def sortDesc : List ActivityItem → List ActivityItem
  | [] => []
  | x :: xs => insertItem x (sortDesc xs)

/-- Embeds `get_recent_activity` (the `/api/recent-activity` endpoint): for
each user in document order take the last 5 history entries (an empty list is
skipped, which the per-user `map` already yields), render each with
truncation, sort all collected items by timestamp newest first (stably), and
return the first 20.  Entries are well-typed here, so the source's
`isinstance`/key checks always pass. -/
def get_recent_activity (history : List (Nat × List HistEntry)) : List ActivityItem :=
  let recent_messages := history.foldl
    (fun acc (p : Nat × List HistEntry) => acc ++ (lastN 5 p.2).map (renderItem p.1)) []
  (sortDesc recent_messages).take 20

/-- Total history entries across users, as the `/api/stats` loop counts them. -/
def totalMessages (history : List (Nat × List HistEntry)) : Nat :=
  history.foldl (fun acc p => acc + p.2.length) 0

/-- Ban record used by the concrete evaluation inputs below. -/
def exBanRec : BanRec :=
  { username := "u7".data, display_name := "U Seven".data
    reason := "spam".data, ban_date := 1 }

/-- Store whose ban document bans user 7 and whose other documents are empty. -/
def exStoreBanned : Store :=
  { users := [], history := [], banlist := [(7, exBanRec)], mappings := ⟨[], []⟩ }

/-- Store with every document empty. -/
def exStoreEmpty : Store :=
  { users := [], history := [], banlist := [], mappings := ⟨[], []⟩ }

/-- Store whose mappings document maps forwarded message 10 to user 5. -/
def exStoreMapped : Store :=
  { users := [], history := [], banlist := [], mappings := ⟨[(10, 5)], []⟩ }

/-- Sender with id 7 (banned in `exStoreBanned`). -/
def exSender7 : UserInfo := { id := 7, username := none, first_name := some ("Ali".data), last_name := none }

/-- Sender with id 9. -/
def exSender9 : UserInfo := { id := 9, username := some ("bob".data), first_name := none, last_name := none }

/-- History document holding six entries for one user, at times 0 to 5. -/
def exHistC1 : List (Nat × List HistEntry) :=
  [(1, [ { message := "m0".data, type := .user_message, timestamp := 0 }
       , { message := "m1".data, type := .user_message, timestamp := 1 }
       , { message := "m2".data, type := .user_message, timestamp := 2 }
       , { message := "m3".data, type := .user_message, timestamp := 3 }
       , { message := "m4".data, type := .user_message, timestamp := 4 }
       , { message := "m5".data, type := .user_message, timestamp := 5 } ])]

/-- Deletion oracle that succeeds exactly for user 1. -/
def exOk : Nat → Nat → Bool := fun u _ => u == 1

/-- Broadcast document with two records; the latest (key 5) has three
recipients. -/
def exBroadcasts : List (Nat × List Recipient) :=
  [ (3, [ { user_id := 1, message_id := 100 }, { user_id := 2, message_id := 200 } ])
  , (5, [ { user_id := 1, message_id := 101 }, { user_id := 2, message_id := 201 }
        , { user_id := 3, message_id := 301 } ]) ]

theorem getKey_setKey_self (k : Nat) (v : α) (l : List (Nat × α)) :
    getKey k (setKey k v l) = some v := by
  induction l with
  | nil => simp [setKey, getKey]
  | cons p rest ih =>
    obtain ⟨k', v'⟩ := p
    by_cases h : k' = k
    · simp [setKey, getKey, h]
    · simp [setKey, getKey, h, ih]

theorem getKey_delKey_self (k : Nat) (l : List (Nat × α)) :
    getKey k (delKey k l) = none := by
  induction l with
  | nil => rfl
  | cons p rest ih =>
    obtain ⟨k', v'⟩ := p
    by_cases h : k' = k
    · simpa [delKey, List.filter_cons, h] using ih
    · simpa [delKey, List.filter_cons, h, getKey] using ih

theorem maxKey_eq_none_iff (l : List (Nat × α)) : maxKey l = none ↔ l = [] := by
  cases l with
  | nil => simp [maxKey]
  | cons p rest =>
    simp only [maxKey]
    cases maxKey rest <;> simp

theorem maxKey_mem (l : List (Nat × α)) (m : Nat) (h : maxKey l = some m) :
    m ∈ l.map Prod.fst := by
  induction l generalizing m with
  | nil => simp [maxKey] at h
  | cons p rest ih =>
    simp only [maxKey] at h
    cases hr : maxKey rest with
    | none =>
      rw [hr] at h
      simp only [Option.some.injEq] at h
      simp [← h]
    | some m' =>
      rw [hr] at h
      simp only [Option.some.injEq] at h
      rcases max_choice p.1 m' with hc | hc
      · simp [← h, hc]
      · right
        rw [← h, hc]
        exact ih m' hr

theorem le_maxKey (l : List (Nat × α)) (m : Nat) (h : maxKey l = some m) :
    ∀ k ∈ l.map Prod.fst, k ≤ m := by
  induction l generalizing m with
  | nil => simp
  | cons p rest ih =>
    simp only [maxKey] at h
    cases hr : maxKey rest with
    | none =>
      rw [hr] at h
      simp only [Option.some.injEq] at h
      rw [maxKey_eq_none_iff] at hr
      subst hr
      simp [← h]
    | some m' =>
      rw [hr] at h
      simp only [Option.some.injEq] at h
      intro k hk
      rcases List.mem_cons.mp hk with hk | hk
      · subst hk
        rw [← h]
        exact le_max_left _ _
      · calc k ≤ m' := ih m' hr k hk
          _ ≤ m := by rw [← h]; exact le_max_right _ _

theorem dropWhile_append_at (l : Str) :
    ∃ u, (l ++ ['@']).dropWhile pyIsSpace = u ++ ['@'] := by
  induction l with
  | nil =>
    refine ⟨[], ?_⟩
    have h : pyIsSpace '@' = false := by decide
    simp [List.dropWhile_cons, h]
  | cons c cs ih =>
    by_cases h : pyIsSpace c = true
    · simpa [List.dropWhile_cons, h] using ih
    · exact ⟨c :: cs, by simp [List.dropWhile_cons, h]⟩

theorem strip_head_at (t : Str) (h : t.head? = some '@') :
    (strip t).head? = some '@' := by
  cases t with
  | nil => simp at h
  | cons c ts =>
    simp only [List.head?_cons, Option.some.injEq] at h
    subst h
    unfold strip
    rw [List.dropWhile_cons]
    have hat : pyIsSpace '@' = false := by decide
    rw [hat]
    simp only [Bool.false_eq_true, if_false, List.reverse_cons]
    obtain ⟨u, hu⟩ := dropWhile_append_at ts.reverse
    rw [hu, List.reverse_append]
    simp

theorem foldl_delete_count (ok : Nat → Nat → Bool) (l : List Recipient) :
    ∀ (a b : Nat),
      l.foldl
        (fun (acc : Nat × Nat) r =>
          if ok r.user_id r.message_id then (acc.1 + 1, acc.2) else (acc.1, acc.2 + 1))
        (a, b)
      = (a + l.countP (fun r => ok r.user_id r.message_id),
         b + l.countP (fun r => !(ok r.user_id r.message_id))) := by
  induction l with
  | nil => intro a b; simp
  | cons r rest ih =>
    intro a b
    by_cases h : ok r.user_id r.message_id = true
    all_goals simp [List.foldl_cons, h, ih, List.countP_cons, Prod.mk.injEq]
    all_goals omega

theorem countP_add_countP_not_rec (ok : Nat → Nat → Bool) (l : List Recipient) :
    l.countP (fun r => ok r.user_id r.message_id) +
      l.countP (fun r => !(ok r.user_id r.message_id)) = l.length := by
  induction l with
  | nil => simp
  | cons r rest ih =>
    by_cases h : ok r.user_id r.message_id = true <;>
      simp [List.countP_cons, h] <;> omega

theorem mem_insertItem (x y : ActivityItem) (l : List ActivityItem) :
    y ∈ insertItem x l ↔ y = x ∨ y ∈ l := by
  induction l with
  | nil => simp [insertItem]
  | cons z zs ih =>
    by_cases h : z.timestamp ≤ x.timestamp
    · simp [insertItem, h]
    · simp only [insertItem, h, if_false, List.mem_cons, ih]
      tauto

theorem pairwise_insertItem (x : ActivityItem) (l : List ActivityItem)
    (h : l.Pairwise (fun a b => b.timestamp ≤ a.timestamp)) :
    (insertItem x l).Pairwise (fun a b => b.timestamp ≤ a.timestamp) := by
  induction l with
  | nil => simp [insertItem]
  | cons y ys ih =>
    rcases List.pairwise_cons.mp h with ⟨hy, hys⟩
    by_cases hxy : y.timestamp ≤ x.timestamp
    · simp only [insertItem, hxy, if_true]
      refine List.pairwise_cons.mpr ⟨?_, h⟩
      intro z hz
      rcases List.mem_cons.mp hz with hz | hz
      · subst hz; exact hxy
      · exact (hy z hz).trans hxy
    · simp only [insertItem, hxy, if_false]
      refine List.pairwise_cons.mpr ⟨?_, ih hys⟩
      intro z hz
      rcases (mem_insertItem x z ys).mp hz with hz | hz
      · subst hz; omega
      · exact hy z hz

theorem pairwise_sortDesc (l : List ActivityItem) :
    (sortDesc l).Pairwise (fun a b => b.timestamp ≤ a.timestamp) := by
  induction l with
  | nil => simp [sortDesc]
  | cons x xs ih => exact pairwise_insertItem x (sortDesc xs) ih

theorem mem_sortDesc (x : ActivityItem) (l : List ActivityItem) :
    x ∈ sortDesc l ↔ x ∈ l := by
  induction l with
  | nil => simp [sortDesc]
  | cons y ys ih => simp [sortDesc, mem_insertItem, ih]

theorem insertItem_perm (x : ActivityItem) (l : List ActivityItem) :
    (insertItem x l).Perm (x :: l) := by
  induction l with
  | nil => simp [insertItem]
  | cons y ys ih =>
    by_cases h : y.timestamp ≤ x.timestamp
    · simp [insertItem, h]
    · simp only [insertItem, h, if_false]
      exact (ih.cons y).trans (List.Perm.swap x y ys)

theorem sortDesc_perm (l : List ActivityItem) : (sortDesc l).Perm l := by
  induction l with
  | nil => simp [sortDesc]
  | cons x xs ih => exact (insertItem_perm x (sortDesc xs)).trans (ih.cons x)

theorem mem_foldl_append {α β : Type} (f : α → List β) (l : List α) :
    ∀ (acc : List β) (x : β),
      (x ∈ l.foldl (fun a p => a ++ f p) acc ↔ x ∈ acc ∨ ∃ p ∈ l, x ∈ f p) := by
  induction l with
  | nil => intro acc x; simp
  | cons p rest ih =>
    intro acc x
    simp only [List.foldl_cons, ih, List.mem_append, List.mem_cons]
    constructor
    · rintro ((hx | hx) | ⟨q, hq, hxq⟩)
      · exact Or.inl hx
      · exact Or.inr ⟨p, Or.inl rfl, hx⟩
      · exact Or.inr ⟨q, Or.inr hq, hxq⟩
    · rintro (hx | ⟨q, (rfl | hq), hxq⟩)
      · exact Or.inl (Or.inl hx)
      · exact Or.inl (Or.inr hxq)
      · exact Or.inr ⟨q, hq, hxq⟩

/-- C7: `load_json_file` on a missing file or an unparseable document returns
an empty mapping for every domain document (users, history values, bans,
broadcasts, message mappings), and, being total, raises nothing.  Shown at
each stored value type the repository uses. -/
theorem load_missing_or_corrupt_empty :
    @load_json_file Nat UserRec .missing = [] ∧
    @load_json_file Nat UserRec .corrupt = [] ∧
    @load_json_file Nat (List HistEntry) .missing = [] ∧
    @load_json_file Nat (List HistEntry) .corrupt = [] ∧
    @load_json_file Nat BanRec .missing = [] ∧
    @load_json_file Nat BanRec .corrupt = [] ∧
    @load_json_file Nat (List Recipient) .missing = [] ∧
    @load_json_file Nat (List Recipient) .corrupt = [] :=
  ⟨rfl, rfl, rfl, rfl, rfl, rfl, rfl, rfl⟩

/-- C9: inside the staff destination, the `list` command always replies with
a user count of exactly 1200 plus the number of entries stored in the users
document. -/
theorem cmd_list_count (users : List (Nat × UserRec)) :
    cmd_list ADMIN_GROUP_ID users =
      some ("👥 عدد المستخدمين: ".data ++ natStr (1200 + users.length)) := by
  simp [cmd_list]

/-- C6: for every user id, `ban_user` then `unban_user` leaves no ban record
for the id (the first unban reports success), and a second `unban_user`
returns the not-banned result `False` while leaving the ban document
unchanged. -/
theorem ban_unban_roundtrip (users : List (Nat × UserRec))
    (banlist : List (Nat × BanRec)) (user_id : Nat) (reason : Str) (now : Nat) :
    getKey user_id (unban_user (ban_user users banlist user_id reason now) user_id).1 = none ∧
    (unban_user (ban_user users banlist user_id reason now) user_id).2 = true ∧
    unban_user (unban_user (ban_user users banlist user_id reason now) user_id).1 user_id =
      ((unban_user (ban_user users banlist user_id reason now) user_id).1, false) := by
  have h1 : getKey user_id (ban_user users banlist user_id reason now) =
      some { username := match getKey user_id users with
               | some u => u.username
               | none => "Unknown".data
             display_name := match getKey user_id users with
               | some u => u.display_name
               | none => "Unknown".data
             reason := reason, ban_date := now } := by
    unfold ban_user
    exact getKey_setKey_self _ _ _
  have h2 : (unban_user (ban_user users banlist user_id reason now) user_id) =
      (delKey user_id (ban_user users banlist user_id reason now), true) := by
    unfold unban_user
    rw [h1]
    simp
  have h3 : getKey user_id (delKey user_id (ban_user users banlist user_id reason now)) = none :=
    getKey_delKey_self _ _
  refine ⟨by rw [h2]; exact h3, by rw [h2], ?_⟩
  rw [h2]
  unfold unban_user
  rw [h3]
  simp

/-- C3: a private message from a banned sender changes no document at all (in
particular the history and mappings documents are unchanged and no forward
mapping is created), sends nothing to the staff group, forwards nothing, and
replies to the sender with exactly the ban notice. -/
theorem banned_sender_frame (st : Store) (sender : UserInfo) (body : MsgBody)
    (now fwdId : Nat) (sendOk fwdOk : Bool)
    (h : is_user_banned st.banlist sender.id = true) :
    handle_private_message st sender body now fwdId sendOk fwdOk =
      { store := st, userReplies := [BAN_MESSAGE], adminSends := [], forwarded := false } := by
  unfold handle_private_message
  rw [h]
  simp

/-- Witness for C3: with user 7 banned, their text message leaves the store
untouched and yields only the ban notice. -/
theorem banned_sender_frame_witness :
    is_user_banned exStoreBanned.banlist 7 = true ∧
    handle_private_message exStoreBanned exSender7 (.text ("hi".data)) 3 11 true true =
      { store := exStoreBanned, userReplies := [BAN_MESSAGE], adminSends := []
        forwarded := false } :=
  ⟨by decide, banned_sender_frame exStoreBanned exSender7 (.text ("hi".data)) 3 11 true true (by decide)⟩

/-- C5: a staff reply whose text begins with the character `@` is dropped
before any branch runs: no document changes (so no reply mapping and no
history entry), no send or forward to any user, and no acknowledgment. -/
theorem at_note_suppressed (st : Store) (chatId : Int) (msgId : Nat)
    (replyTo : Option Nat) (body : MsgBody) (now deliveredId : Nat)
    (sendOk fwdOk : Bool) (errText : Str) (t : Str)
    (htext : bodyText body = some t) (hat : t.head? = some '@') :
    handle_group_message st chatId msgId replyTo body now deliveredId sendOk fwdOk errText =
      groupNoop st := by
  unfold handle_group_message
  by_cases hc : chatId ≠ ADMIN_GROUP_ID
  · rw [if_pos hc]
  · rw [if_neg hc]
    cases replyTo with
    | none => rfl
    | some rid =>
      have hnote : isInternalNote body = true := by
        unfold isInternalNote
        rw [htext]
        have hne : t ≠ [] := by
          intro he
          rw [he] at hat
          simp at hat
        have h1 : pyTruthy (some t) = true := by
          unfold pyTruthy
          simpa using hne
        have h2 : startsWithAtSign (strip t) = true := by
          unfold startsWithAtSign
          rw [strip_head_at t hat]
          rfl
        simp only [Option.getD_some, h1, h2, Bool.and_self]
      simp only [hnote, if_true]

/-- Witness for C5: a reply of text `@x` to a mapped forwarded message is
fully suppressed. -/
theorem at_note_suppressed_witness :
    bodyText (.text ("@x".data)) = some ("@x".data) ∧
    ("@x".data : Str).head? = some '@' ∧
    handle_group_message exStoreMapped ADMIN_GROUP_ID 31 (some 10) (.text ("@x".data)) 7 41
      true true [] = groupNoop exStoreMapped :=
  ⟨by decide, by decide,
    at_note_suppressed exStoreMapped ADMIN_GROUP_ID 31 (some 10) (.text ("@x".data)) 7 41
      true true [] ("@x".data) (by decide) (by decide)⟩

/-- C2 counterexample: sender 7 is banned and not yet stored; after the
handler processes their private message, the users document still has no
entry keyed by 7, so the claim fails as stated for banned senders. -/
theorem private_message_banned_no_upsert_cex :
    is_user_banned exStoreBanned.banlist 7 = true ∧
    getKey 7 (handle_private_message exStoreBanned exSender7 (.text ("hola".data)) 3 11 true true).store.users = none := by
  decide

/-- C2 amended: for every sender who is not banned when the private message
is processed, the users document afterwards contains an entry keyed by the
sender's id (with that id and the current join date), on the start-button
path as well as the relay path, whatever the staff-group send and forward
outcomes. -/
theorem private_message_upserts_user (st : Store) (sender : UserInfo)
    (body : MsgBody) (now fwdId : Nat) (sendOk fwdOk : Bool)
    (h : is_user_banned st.banlist sender.id = false) :
    ∃ r, getKey sender.id
        (handle_private_message st sender body now fwdId sendOk fwdOk).store.users = some r ∧
      r.id = sender.id ∧ r.join_date = now := by
  have key : ∀ (users : List (Nat × UserRec)),
      ∃ r, getKey sender.id (add_user users sender.id (get_user_info sender) now) = some r ∧
        r.id = sender.id ∧ r.join_date = now := by
    intro users
    refine ⟨_, getKey_setKey_self _ _ _, ?_, ?_⟩ <;> rfl
  unfold handle_private_message
  rw [h]
  simp only [Bool.false_eq_true, if_false]
  by_cases hs : bodyText body = some START_BUTTON
  · simp only [if_pos hs]
    exact key st.users
  · simp only [if_neg hs]
    cases sendOk <;> cases fwdOk <;> exact key st.users

/-- Witness for the amended C2: unbanned sender 9 ends up stored under key 9
with join date 4. -/
theorem private_message_upserts_user_witness :
    is_user_banned exStoreEmpty.banlist 9 = false ∧
    ∃ r, getKey 9
        (handle_private_message exStoreEmpty exSender9 (.text ("hello".data)) 4 12 true true).store.users = some r ∧
      r.id = 9 ∧ r.join_date = 4 :=
  ⟨by decide,
    private_message_upserts_user exStoreEmpty exSender9 (.text ("hello".data)) 4 12 true true (by decide)⟩

/-- C10: a staff media reply (no text field) to a message whose forward
mapping yields user `u` (nonzero, as every platform-assigned id is; the
source tests `if original_user_id:`) can never be suppressed as an internal
note — the admin-info send towards `u` is attempted whatever the delivery
outcomes — and the relay completes as far as the platform lets it: after a
successful admin-info send the media forward to `u` is attempted, after both
calls succeed the staff member gets the success acknowledgment, and when
either delivery call raises the staff member gets the inline error instead
while the documents stay unchanged. -/
theorem media_reply_relayed (st : Store) (msgId rid now deliveredId : Nat)
    (sendOk fwdOk : Bool) (errText : Str) (body : MsgBody) (u : Nat)
    (htext : bodyText body = none)
    (hmap : get_user_from_mapping rid st.mappings = some u) (hu : u ≠ 0) :
    (handle_group_message st ADMIN_GROUP_ID msgId (some rid) body now deliveredId sendOk fwdOk errText).sendAttempts =
      [(u, "📩 رد من الإدارة:".data)] ∧
    (sendOk = true →
      (handle_group_message st ADMIN_GROUP_ID msgId (some rid) body now deliveredId sendOk fwdOk errText).forwardAttempt = some u) ∧
    (sendOk = true → fwdOk = true →
      (handle_group_message st ADMIN_GROUP_ID msgId (some rid) body now deliveredId sendOk fwdOk errText).adminReply =
        some REPLY_SENT_MESSAGE) ∧
    ((sendOk = false ∨ fwdOk = false) →
      (handle_group_message st ADMIN_GROUP_ID msgId (some rid) body now deliveredId sendOk fwdOk errText).adminReply =
          some (replyFailedText errText) ∧
        (handle_group_message st ADMIN_GROUP_ID msgId (some rid) body now deliveredId sendOk fwdOk errText).store = st) := by
  have hnote : isInternalNote body = false := by
    unfold isInternalNote
    rw [htext]
    rfl
  cases sendOk <;> cases fwdOk <;>
    simp [handle_group_message, hmap, hnote, htext, hu, pyTruthy]

/-- Witness for C10: a photo reply to mapped message 10 with both delivery
calls succeeding is forwarded to user 5 after the admin-info send, with the
success acknowledgment. -/
theorem media_reply_relayed_witness :
    bodyText (.photo none) = none ∧
    get_user_from_mapping 10 exStoreMapped.mappings = some 5 ∧
    (5 : Nat) ≠ 0 ∧
    ((handle_group_message exStoreMapped ADMIN_GROUP_ID 32 (some 10) (.photo none) 8 42 true true []).sendAttempts =
      [(5, "📩 رد من الإدارة:".data)] ∧
     (true = true →
      (handle_group_message exStoreMapped ADMIN_GROUP_ID 32 (some 10) (.photo none) 8 42 true true []).forwardAttempt = some 5) ∧
     (true = true → true = true →
      (handle_group_message exStoreMapped ADMIN_GROUP_ID 32 (some 10) (.photo none) 8 42 true true []).adminReply =
        some REPLY_SENT_MESSAGE) ∧
     ((true = false ∨ true = false) →
      (handle_group_message exStoreMapped ADMIN_GROUP_ID 32 (some 10) (.photo none) 8 42 true true []).adminReply =
          some (replyFailedText []) ∧
        (handle_group_message exStoreMapped ADMIN_GROUP_ID 32 (some 10) (.photo none) 8 42 true true []).store = exStoreMapped)) :=
  ⟨by decide, by decide, by decide,
    media_reply_relayed exStoreMapped 32 10 8 42 true true [] (.photo none) 5
      (by decide) (by decide) (by decide)⟩

/-- C4 counterexample: a forward mapping exists for message 10, yet the staff
reply `@hi` to it is delivered to nobody (no send or forward is even
attempted, with delivery calls that would succeed), so "delivered iff a
mapping exists" fails as stated. -/
theorem staff_reply_at_note_mapping_cex :
    get_user_from_mapping 10 exStoreMapped.mappings = some 5 ∧
    (handle_group_message exStoreMapped ADMIN_GROUP_ID 30 (some 10) (.text ("@hi".data)) 6 40 true true []).sendAttempts = [] ∧
    (handle_group_message exStoreMapped ADMIN_GROUP_ID 30 (some 10) (.text ("@hi".data)) 6 40 true true []).forwardAttempt = none := by
  decide

/-- C4 amended: for a staff reply that is not an internal note (its text does
not begin with `@` after stripping), a delivery call towards a user is made
iff the forward-mapping lookup of the replied-to id yields a nonzero user id
(the source tests `if original_user_id:`, and platform ids are nonzero) —
whatever the delivery outcomes, the content reaching the user when the calls
succeed; and when no mapping exists at all, no outbound send or forward is
attempted and no persisted document changes. -/
theorem staff_reply_delivery_iff (st : Store) (msgId rid : Nat) (body : MsgBody)
    (now deliveredId : Nat) (sendOk fwdOk : Bool) (errText : Str)
    (hnote : isInternalNote body = false) :
    ((∃ u, get_user_from_mapping rid st.mappings = some u ∧ u ≠ 0) ↔
      ((handle_group_message st ADMIN_GROUP_ID msgId (some rid) body now deliveredId sendOk fwdOk errText).sendAttempts ≠ [] ∨
       (handle_group_message st ADMIN_GROUP_ID msgId (some rid) body now deliveredId sendOk fwdOk errText).forwardAttempt ≠ none)) ∧
    (get_user_from_mapping rid st.mappings = none →
      handle_group_message st ADMIN_GROUP_ID msgId (some rid) body now deliveredId sendOk fwdOk errText =
        groupNoop st) := by
  cases hm : get_user_from_mapping rid st.mappings with
  | none =>
    constructor
    · cases sendOk <;> cases fwdOk <;>
        simp [handle_group_message, hm, hnote, groupNoop]
    · intro
      cases sendOk <;> cases fwdOk <;>
        simp [handle_group_message, hm, hnote]
  | some u =>
    constructor
    · by_cases hu : u = 0
      · subst hu
        cases sendOk <;> cases fwdOk <;>
          simp [handle_group_message, hm, hnote, groupNoop]
      · by_cases ht : pyTruthy (bodyText body) = true <;>
          cases sendOk <;> cases fwdOk <;>
          simp [handle_group_message, hm, hnote, hu, ht]
    · intro hc
      exact absurd hc (by simp)

/-- Witness for the amended C4: the non-note reply `hi` to mapped message 10
satisfies both parts of the conclusion. -/
theorem staff_reply_delivery_iff_witness :
    isInternalNote (.text ("hi".data)) = false ∧
    (((∃ u, get_user_from_mapping 10 exStoreMapped.mappings = some u ∧ u ≠ 0) ↔
      ((handle_group_message exStoreMapped ADMIN_GROUP_ID 33 (some 10) (.text ("hi".data)) 9 43 true true []).sendAttempts ≠ [] ∨
       (handle_group_message exStoreMapped ADMIN_GROUP_ID 33 (some 10) (.text ("hi".data)) 9 43 true true []).forwardAttempt ≠ none)) ∧
     (get_user_from_mapping 10 exStoreMapped.mappings = none →
      handle_group_message exStoreMapped ADMIN_GROUP_ID 33 (some 10) (.text ("hi".data)) 9 43 true true [] =
        groupNoop exStoreMapped)) :=
  ⟨by decide,
    staff_reply_delivery_iff exStoreMapped 33 10 (.text ("hi".data)) 9 43 true true [] (by decide)⟩

/-- C8: with at least one broadcast record stored, `/delete all` picks the
record with the greatest (most recent) key, attempts deletion for every one
of its recipients, counts successes and failures over an arbitrary
per-recipient outcome oracle, removes that record from the broadcast
document unconditionally (its key is gone afterwards, however many deletions
failed), and reports both counts. -/
theorem delete_all_spec (ok : Nat → Nat → Bool)
    (broadcast_data : List (Nat × List Recipient)) (h : broadcast_data ≠ []) :
    ∃ latest res,
      maxKey broadcast_data = some latest ∧
      latest ∈ broadcast_data.map Prod.fst ∧
      (∀ k ∈ broadcast_data.map Prod.fst, k ≤ latest) ∧
      cmd_delete_all ok broadcast_data = some res ∧
      res.attempted = (getKey latest broadcast_data).getD [] ∧
      res.newBroadcasts = delKey latest broadcast_data ∧
      getKey latest res.newBroadcasts = none ∧
      res.deleted = res.attempted.countP (fun r => ok r.user_id r.message_id) ∧
      res.failed = res.attempted.countP (fun r => !(ok r.user_id r.message_id)) ∧
      res.deleted + res.failed = res.attempted.length ∧
      res.reply = "✅ تم حذف آخر رسالة بث\nنجح: ".data ++ natStr res.deleted ++
        "\nفشل: ".data ++ natStr res.failed := by
  cases hm : maxKey broadcast_data with
  | none => exact absurd ((maxKey_eq_none_iff _).mp hm) h
  | some latest =>
    have hfold := foldl_delete_count ok ((getKey latest broadcast_data).getD []) 0 0
    simp only [Nat.zero_add] at hfold
    refine ⟨latest,
      { newBroadcasts := delKey latest broadcast_data
        attempted := (getKey latest broadcast_data).getD []
        deleted := ((getKey latest broadcast_data).getD []).countP
          (fun r => ok r.user_id r.message_id)
        failed := ((getKey latest broadcast_data).getD []).countP
          (fun r => !(ok r.user_id r.message_id))
        reply := "✅ تم حذف آخر رسالة بث\nنجح: ".data ++
          natStr (((getKey latest broadcast_data).getD []).countP
            (fun r => ok r.user_id r.message_id)) ++
          "\nفشل: ".data ++
          natStr (((getKey latest broadcast_data).getD []).countP
            (fun r => !(ok r.user_id r.message_id))) },
      rfl, maxKey_mem _ _ hm, le_maxKey _ _ hm, ?_, rfl, rfl, getKey_delKey_self _ _,
      rfl, rfl, countP_add_countP_not_rec ok _, rfl⟩
    unfold cmd_delete_all
    rw [hm]
    simp only [hfold]

/-- Witness for C8: with two stored broadcasts and an oracle that only
succeeds for user 1, the latest record (key 5, three recipients) is fully
attempted and removed. -/
theorem delete_all_spec_witness :
    exBroadcasts ≠ [] ∧
    (∃ latest res,
      maxKey exBroadcasts = some latest ∧
      latest ∈ exBroadcasts.map Prod.fst ∧
      (∀ k ∈ exBroadcasts.map Prod.fst, k ≤ latest) ∧
      cmd_delete_all exOk exBroadcasts = some res ∧
      res.attempted = (getKey latest exBroadcasts).getD [] ∧
      res.newBroadcasts = delKey latest exBroadcasts ∧
      getKey latest res.newBroadcasts = none ∧
      res.deleted = res.attempted.countP (fun r => exOk r.user_id r.message_id) ∧
      res.failed = res.attempted.countP (fun r => !(exOk r.user_id r.message_id)) ∧
      res.deleted + res.failed = res.attempted.length ∧
      res.reply = "✅ تم حذف آخر رسالة بث\nنجح: ".data ++ natStr res.deleted ++
        "\nفشل: ".data ++ natStr res.failed) :=
  ⟨by decide, delete_all_spec exOk exBroadcasts (by decide)⟩

/-- C1 counterexample: with a single user holding six entries (timestamps 0
to 5), the twenty most recent entries across all users are all six of them,
but the endpoint returns only five items and the oldest entry (timestamp 0)
is absent — the per-user `messages[-5:]` window drops it. -/
theorem recent_activity_window_cex :
    totalMessages exHistC1 = 6 ∧ (6 : Nat) ≤ 20 ∧
    (get_recent_activity exHistC1).length = 5 ∧
    (∀ x ∈ get_recent_activity exHistC1, x.timestamp ≠ 0) := by
  decide

/-- C1 amended: the endpoint returns exactly the min(20, pool size) newest
items of the pool formed by each user's last 5 stored history entries —
ordered newest first, every pooled entry it omits no newer than every item
it returns, the returned items together with the omitted ones a permutation
of the whole pool, and every item rendering its entry with 100-character
truncation; entries outside a user's last-5 window never appear, even when
among the 20 most recent across all users. -/
theorem recent_activity_spec (history : List (Nat × List HistEntry)) :
    ∃ pool rest,
      pool = history.foldl
        (fun acc (p : Nat × List HistEntry) => acc ++ (lastN 5 p.2).map (renderItem p.1)) [] ∧
      pool.Perm (get_recent_activity history ++ rest) ∧
      (get_recent_activity history).length = min 20 pool.length ∧
      (get_recent_activity history).Pairwise (fun a b => b.timestamp ≤ a.timestamp) ∧
      (∀ x ∈ get_recent_activity history, ∀ y ∈ rest, y.timestamp ≤ x.timestamp) ∧
      (∀ x ∈ get_recent_activity history, ∃ uid msgs e,
        (uid, msgs) ∈ history ∧ e ∈ lastN 5 msgs ∧ x = renderItem uid e) := by
  have hdef : get_recent_activity history =
      (sortDesc (history.foldl
        (fun acc (p : Nat × List HistEntry) => acc ++ (lastN 5 p.2).map (renderItem p.1))
        [])).take 20 := rfl
  refine ⟨history.foldl
      (fun acc (p : Nat × List HistEntry) => acc ++ (lastN 5 p.2).map (renderItem p.1)) [],
    (sortDesc (history.foldl
      (fun acc (p : Nat × List HistEntry) => acc ++ (lastN 5 p.2).map (renderItem p.1))
      [])).drop 20, rfl, ?_, ?_, ?_, ?_, ?_⟩
  · rw [hdef, List.take_append_drop]
    exact (sortDesc_perm _).symm
  · rw [hdef, List.length_take, (sortDesc_perm _).length_eq]
  · rw [hdef]
    exact (pairwise_sortDesc _).sublist (List.take_sublist _ _)
  · have hs := pairwise_sortDesc (history.foldl
      (fun acc (p : Nat × List HistEntry) => acc ++ (lastN 5 p.2).map (renderItem p.1)) [])
    rw [← List.take_append_drop 20 (sortDesc (history.foldl
      (fun acc (p : Nat × List HistEntry) => acc ++ (lastN 5 p.2).map (renderItem p.1)) []))] at hs
    have hcross := (List.pairwise_append.mp hs).2.2
    intro x hx y hy
    exact hcross x (hdef ▸ hx) y hy
  · intro x hx
    rw [hdef] at hx
    have hx1 : x ∈ sortDesc (history.foldl
        (fun acc (p : Nat × List HistEntry) => acc ++ (lastN 5 p.2).map (renderItem p.1)) []) :=
      (List.take_sublist _ _).subset hx
    rw [mem_sortDesc] at hx1
    rw [mem_foldl_append] at hx1
    rcases hx1 with hx1 | ⟨p, hp, hxp⟩
    · exact absurd hx1 (List.not_mem_nil x)
    · rcases List.mem_map.mp hxp with ⟨e, he, hre⟩
      exact ⟨p.1, p.2, e, by simpa using hp, he, hre.symm⟩
